import Mathlib

/-!
Verification of the daily-temperature anomaly analyzer of this repository.

The repository's weather scripts (`dag_day_1.py`, `weather.py`, `dag_1.py`)
share one piece of logic: given a window of daily `(date, max_temp, min_temp)`
samples they report the extreme samples, the arithmetic means, and the days
flagged as hot/cold anomalies.  `dag_day_1.py` compares each day against the
window's own mean plus/minus a threshold; `weather.py` compares against fixed
climate normals; `dag_1.py` (pandas) flags days whose absolute deviation from
the mean max temperature exceeds 2.0.

Temperatures are embedded as rationals (`ℚ`): the scripts' arithmetic on the
samples is plain `+`, `-`, `/`, `max`, `min`, `abs` and comparisons, and
Python's `statistics.mean` computes the exact mean.  Dates are embedded as
naturals standing for ISO dates in chronological encoding (e.g. 20240101).
-/

/-- A daily record: date, maximum and minimum temperature of the day
(`time` / `temperature_2m_max` / `temperature_2m_min` in the scripts). -/
structure DailySample where
  date : Nat
  max_temp : ℚ
  min_temp : ℚ
deriving DecidableEq, Repr

/-- Python's built-in `max` over the non-empty list `x :: xs`: a left fold
keeping the larger value, so on ties the earlier element's value stands. -/
def pymax (x : ℚ) (xs : List ℚ) : ℚ := xs.foldl max x

/-- Python's built-in `min` over the non-empty list `x :: xs`. -/
def pymin (x : ℚ) (xs : List ℚ) : ℚ := xs.foldl min x

/-- `statistics.mean` / pandas `.mean()`: the exact arithmetic mean
`sum / count` (Python's `statistics.mean` is exact on its inputs). -/
def listMean (xs : List ℚ) : ℚ := xs.sum / (xs.length : ℚ)

/-- Modelled from the spec: the two threshold policies observed across the
scripts, as the spec's tagged `ThresholdStrategy` variant.
`relativeToMean delta` is `dag_day_1.py` (there `delta = 5.0`);
`relativeToFixedNormal` is `weather.py` (there `(29.5, 22.5, 2.5)`). -/
inductive ThresholdStrategy where
  | relativeToMean (delta : ℚ)
  | relativeToFixedNormal (normal_max normal_min delta : ℚ)
deriving DecidableEq, Repr

/-- Modelled from the spec: the only error the Analyzer itself can produce. -/
inductive InvalidInputError where
  | emptyWindow
deriving DecidableEq, Repr

/-- The analyzer's structured result (the spec's `AnomalyReport`; the scripts
print these fields instead of returning them). -/
structure AnomalyReport where
  highest : DailySample
  lowest : DailySample
  mean_max : ℚ
  mean_min : ℚ
  hot_anomalies : List DailySample
  cold_anomalies : List DailySample
deriving DecidableEq, Repr

/-- The hot-day test of the scripts' anomaly loops:
`max_temps[i] > avg_max_temp + ANOMALY_THRESHOLD_DEGREES` in `dag_day_1.py`,
`max_temps[i] > NORMAL_MAX_TEMP_HYD + ANOMALY_THRESHOLD_DEGREES` in
`weather.py`. -/
def isHotDay : ThresholdStrategy → ℚ → DailySample → Bool
  | .relativeToMean delta, mean_max, s => decide (mean_max + delta < s.max_temp)
  | .relativeToFixedNormal nmax _ delta, _, s => decide (nmax + delta < s.max_temp)

/-- The cold-day test of the scripts' anomaly loops:
`min_temps[i] < avg_min_temp - ANOMALY_THRESHOLD_DEGREES` in `dag_day_1.py`,
`min_temps[i] < NORMAL_MIN_TEMP_HYD - ANOMALY_THRESHOLD_DEGREES` in
`weather.py`. -/
def isColdDay : ThresholdStrategy → ℚ → DailySample → Bool
  | .relativeToMean delta, mean_min, s => decide (s.min_temp < mean_min - delta)
  | .relativeToFixedNormal _ nmin delta, _, s => decide (s.min_temp < nmin - delta)

/-- The analyzer: `analyze_weather_data` of `dag_day_1.py` / `weather.py`,
abstracted over the threshold strategy as the spec directs, with the
computations transcribed from the scripts:

* `highest_temp = max(max_temps)`, `lowest_temp = min(min_temps)`;
* `date_of_highest = dates[max_temps.index(highest_temp)]` — the extreme
  sample is the one at the first index attaining the extreme value
  (here the whole sample is returned, as in the spec's report);
* `avg_max_temp = statistics.mean(max_temps)` and likewise for min;
* the anomaly loop runs over the window in order testing each day with the
  strategy's hot and cold conditions independently.

The empty-window guard returning `InvalidInputError` is modelled from the
spec (the scripts guard on missing `daily` data and merely print a message).
The `getD` default is never used: the index of a present value is in range. -/
def analyze_weather_data (strat : ThresholdStrategy) :
    List DailySample → Except InvalidInputError AnomalyReport
  | [] => Except.error InvalidInputError.emptyWindow
  | first :: rest =>
    let window := first :: rest
    let max_temps := window.map DailySample.max_temp
    let min_temps := window.map DailySample.min_temp
    let highest_temp := pymax first.max_temp (rest.map DailySample.max_temp)
    let lowest_temp := pymin first.min_temp (rest.map DailySample.min_temp)
    let highest := window.getD (max_temps.indexOf highest_temp) first
    let lowest := window.getD (min_temps.indexOf lowest_temp) first
    let avg_max_temp := listMean max_temps
    let avg_min_temp := listMean min_temps
    let hot_anomalies := window.filter (isHotDay strat avg_max_temp)
    let cold_anomalies := window.filter (isColdDay strat avg_min_temp)
    Except.ok
      { highest := highest
        lowest := lowest
        mean_max := avg_max_temp
        mean_min := avg_min_temp
        hot_anomalies := hot_anomalies
        cold_anomalies := cold_anomalies }

/-- The state of the pandas DataFrame of `dag_1.py`: the fetched rows plus
the two derived columns the script writes into the frame in place
(`df['temp_fluctuation'] = ...`, `df['deviation_from_avg'] = ...`);
`none` means the column is absent. -/
structure DataFrame where
  rows : List DailySample
  temp_fluctuation : Option (List ℚ)
  deviation_from_avg : Option (List ℚ)
deriving DecidableEq, Repr

/-- The result printed by `analyze_weather_data` of `dag_1.py`. -/
structure Dag1Report where
  highest_temp_record : DailySample
  lowest_temp_record : DailySample
  anomaly_record : DailySample
  avg_max_temp : ℚ
  significant_deviations : List DailySample
deriving DecidableEq, Repr

/-- `analyze_weather_data` of `dag_1.py` (the pandas script), with the
DataFrame mutation made explicit: the function returns the final state of
its input frame together with the analysis result (`none` when the
empty-frame guard fires).

* `df.loc[df['max_temp_celsius'].idxmax()]` — pandas `idxmax` returns the
  first index attaining the maximum, so the extreme records are the first
  rows attaining the extreme values (likewise `idxmin`);
* `df['temp_fluctuation'] = df['max_temp_celsius'] - df['min_temp_celsius']`
  writes a derived column into the input frame;
* `avg_max_temp = df['max_temp_celsius'].mean()`;
* `df['deviation_from_avg'] = abs(df['max_temp_celsius'] - avg_max_temp)`
  writes a second derived column into the input frame;
* `significant_deviations = df[df['deviation_from_avg'] > 2.0]`. -/
def dag1_analyze_weather_data (df : DataFrame) : DataFrame × Option Dag1Report :=
  match df.rows with
  | [] => (df, none)
  | first :: rest =>
    let window := first :: rest
    let max_temps := window.map DailySample.max_temp
    let min_temps := window.map DailySample.min_temp
    let highest_temp := pymax first.max_temp (rest.map DailySample.max_temp)
    let lowest_temp := pymin first.min_temp (rest.map DailySample.min_temp)
    let highest_temp_record := window.getD (max_temps.indexOf highest_temp) first
    let lowest_temp_record := window.getD (min_temps.indexOf lowest_temp) first
    let fluct := window.map (fun s => s.max_temp - s.min_temp)
    let df₁ : DataFrame := { df with temp_fluctuation := some fluct }
    let max_fluctuation := pymax (first.max_temp - first.min_temp)
      (rest.map (fun s => s.max_temp - s.min_temp))
    let anomaly_record := window.getD (fluct.indexOf max_fluctuation) first
    let avg_max_temp := listMean max_temps
    let dev := window.map (fun s => |s.max_temp - avg_max_temp|)
    let df₂ : DataFrame := { df₁ with deviation_from_avg := some dev }
    let significant_deviations :=
      window.filter (fun s => decide ((2 : ℚ) < |s.max_temp - avg_max_temp|))
    (df₂, some
      { highest_temp_record := highest_temp_record
        lowest_temp_record := lowest_temp_record
        anomaly_record := anomaly_record
        avg_max_temp := avg_max_temp
        significant_deviations := significant_deviations })

instance : DecidableEq (Except InvalidInputError AnomalyReport) := fun a b =>
  match a, b with
  | .error e₁, .error e₂ =>
      if h : e₁ = e₂ then .isTrue (h ▸ rfl) else .isFalse fun hc => h (Except.error.inj hc)
  | .ok r₁, .ok r₂ =>
      if h : r₁ = r₂ then .isTrue (h ▸ rfl) else .isFalse fun hc => h (Except.ok.inj hc)
  | .error _, .ok _ => .isFalse fun hc => Except.noConfusion hc
  | .ok _, .error _ => .isFalse fun hc => Except.noConfusion hc

/-! ### Basic facts about the embedded Python primitives -/

/-- Every element of the non-empty list is bounded by Python's `max` of it. -/
theorem le_pymax (x : ℚ) (xs : List ℚ) : ∀ y ∈ x :: xs, y ≤ pymax x xs := by
  induction xs generalizing x with
  | nil => intro y hy; simp at hy; simp [pymax, hy]
  | cons a l ih =>
    intro y hy
    have step : pymax x (a :: l) = pymax (max x a) l := rfl
    rw [step]
    have hself : max x a ≤ pymax (max x a) l :=
      ih (max x a) (max x a) (List.mem_cons_self _ _)
    rcases List.mem_cons.mp hy with rfl | h
    · exact le_trans (le_max_left _ _) hself
    · rcases List.mem_cons.mp h with rfl | h'
      · exact le_trans (le_max_right _ _) hself
      · exact ih (max x a) y (List.mem_cons_of_mem _ h')

/-- Python's `max` of a non-empty list is one of its elements. -/
theorem pymax_mem (x : ℚ) (xs : List ℚ) : pymax x xs ∈ x :: xs := by
  induction xs generalizing x with
  | nil => simp [pymax]
  | cons a l ih =>
    have step : pymax x (a :: l) = pymax (max x a) l := rfl
    rw [step]
    rcases List.mem_cons.mp (ih (max x a)) with h1 | h1
    · rcases max_choice x a with hc | hc
      · rw [h1, hc]; exact List.mem_cons_self _ _
      · rw [h1, hc]; exact List.mem_cons_of_mem _ (List.mem_cons_self _ _)
    · exact List.mem_cons_of_mem _ (List.mem_cons_of_mem _ h1)

/-- Python's `min` of a non-empty list bounds every element from below. -/
theorem pymin_le (x : ℚ) (xs : List ℚ) : ∀ y ∈ x :: xs, pymin x xs ≤ y := by
  induction xs generalizing x with
  | nil => intro y hy; simp at hy; simp [pymin, hy]
  | cons a l ih =>
    intro y hy
    have step : pymin x (a :: l) = pymin (min x a) l := rfl
    rw [step]
    have hself : pymin (min x a) l ≤ min x a :=
      ih (min x a) (min x a) (List.mem_cons_self _ _)
    rcases List.mem_cons.mp hy with rfl | h
    · exact le_trans hself (min_le_left _ _)
    · rcases List.mem_cons.mp h with rfl | h'
      · exact le_trans hself (min_le_right _ _)
      · exact ih (min x a) y (List.mem_cons_of_mem _ h')

/-- Python's `min` of a non-empty list is one of its elements. -/
theorem pymin_mem (x : ℚ) (xs : List ℚ) : pymin x xs ∈ x :: xs := by
  induction xs generalizing x with
  | nil => simp [pymin]
  | cons a l ih =>
    have step : pymin x (a :: l) = pymin (min x a) l := rfl
    rw [step]
    rcases List.mem_cons.mp (ih (min x a)) with h1 | h1
    · rcases min_choice x a with hc | hc
      · rw [h1, hc]; exact List.mem_cons_self _ _
      · rw [h1, hc]; exact List.mem_cons_of_mem _ (List.mem_cons_self _ _)
    · exact List.mem_cons_of_mem _ (List.mem_cons_of_mem _ h1)

/-- `list.index` returns the FIRST index of the value: whenever position `j`
holds the value, the returned index is at most `j`. -/
theorem indexOf_le_of_get_eq (l : List ℚ) (v : ℚ) (j : Nat) (hj : j < l.length)
    (he : l.get ⟨j, hj⟩ = v) : l.indexOf v ≤ j := by
  induction l generalizing j with
  | nil => simp at hj
  | cons a l ih =>
    cases j with
    | zero =>
      simp only [List.get] at he
      subst he
      simp [List.indexOf_cons_self]
    | succ j =>
      by_cases hav : a = v
      · subst hav; simp [List.indexOf_cons_self]
      · rw [List.indexOf_cons_ne _ hav]
        exact Nat.succ_le_succ (ih j (Nat.lt_of_succ_lt_succ hj) he)

/-- The Python idiom `window[values.index(v)]` (with `values = window.map f`
and `v` present in `values`) returns a member of the window whose `f`-value
is `v`. -/
theorem getD_map_indexOf {α : Type} (w : List α) (f : α → ℚ) (v : ℚ)
    (hv : v ∈ w.map f) (d : α) :
    f (w.getD ((w.map f).indexOf v) d) = v ∧ w.getD ((w.map f).indexOf v) d ∈ w := by
  have hlt : (w.map f).indexOf v < (w.map f).length := List.indexOf_lt_length.mpr hv
  have hlt' : (w.map f).indexOf v < w.length := by simpa using hlt
  rw [List.getD_eq_getElem w d hlt']
  constructor
  · have h1 := List.indexOf_get (a := v) (l := w.map f) hlt
    rw [List.get_eq_getElem, List.getElem_map] at h1
    exact h1
  · exact List.getElem_mem hlt'

/-- The mean of a list in which every element is at most `b` is at most `b`. -/
theorem listMean_le_of_forall_le (xs : List ℚ) (hne : xs ≠ []) (b : ℚ)
    (hub : ∀ t ∈ xs, t ≤ b) : listMean xs ≤ b := by
  have hlen : 0 < (xs.length : ℚ) := by
    have h0 : 0 < xs.length := List.length_pos.mpr hne
    exact_mod_cast h0
  rw [listMean, div_le_iff₀ hlen]
  calc xs.sum ≤ xs.length • b := List.sum_le_card_nsmul xs b hub
    _ = b * xs.length := by rw [nsmul_eq_mul]; ring

/-- The mean of a list in which every element is at least `b` is at least `b`. -/
theorem le_listMean_of_forall_le (xs : List ℚ) (hne : xs ≠ []) (b : ℚ)
    (hlb : ∀ t ∈ xs, b ≤ t) : b ≤ listMean xs := by
  have hlen : 0 < (xs.length : ℚ) := by
    have h0 : 0 < xs.length := List.length_pos.mpr hne
    exact_mod_cast h0
  rw [listMean, le_div_iff₀ hlen]
  calc b * xs.length = xs.length • b := by rw [nsmul_eq_mul]; ring
    _ ≤ xs.sum := List.card_nsmul_le_sum xs b hlb

/-! ### The analyzer on a non-empty window, unfolded -/

/-- On a non-empty window the analyzer produces exactly the report assembled
by the script's straight-line code (the defining equation, spelled out). -/
theorem analyze_cons (strat : ThresholdStrategy) (first : DailySample)
    (rest : List DailySample) :
    analyze_weather_data strat (first :: rest) =
    Except.ok
      { highest := (first :: rest).getD
          (((first :: rest).map DailySample.max_temp).indexOf
            (pymax first.max_temp (rest.map DailySample.max_temp))) first
        lowest := (first :: rest).getD
          (((first :: rest).map DailySample.min_temp).indexOf
            (pymin first.min_temp (rest.map DailySample.min_temp))) first
        mean_max := listMean ((first :: rest).map DailySample.max_temp)
        mean_min := listMean ((first :: rest).map DailySample.min_temp)
        hot_anomalies := (first :: rest).filter
          (isHotDay strat (listMean ((first :: rest).map DailySample.max_temp)))
        cold_anomalies := (first :: rest).filter
          (isColdDay strat (listMean ((first :: rest).map DailySample.min_temp))) } :=
  rfl

/-- The reported highest sample is in the window, its `max_temp` occurs in the
window's list of max temperatures, and it bounds all of them from above. -/
theorem highest_spec (strat : ThresholdStrategy) (first : DailySample)
    (rest : List DailySample) (r : AnomalyReport)
    (h : analyze_weather_data strat (first :: rest) = Except.ok r) :
    r.highest ∈ first :: rest ∧
    r.highest.max_temp ∈ (first :: rest).map DailySample.max_temp ∧
    ∀ t ∈ (first :: rest).map DailySample.max_temp, t ≤ r.highest.max_temp := by
  rw [analyze_cons] at h
  injection h with h
  subst h
  have hmap : (first :: rest).map DailySample.max_temp =
      first.max_temp :: rest.map DailySample.max_temp := rfl
  have hmem : pymax first.max_temp (rest.map DailySample.max_temp) ∈
      (first :: rest).map DailySample.max_temp := by
    rw [hmap]; exact pymax_mem _ _
  have hg := getD_map_indexOf (first :: rest) DailySample.max_temp
    (pymax first.max_temp (rest.map DailySample.max_temp)) hmem first
  dsimp only
  refine ⟨hg.2, ?_, ?_⟩
  · rw [hg.1]; exact hmem
  · intro t ht
    rw [hg.1]
    rw [hmap] at ht
    exact le_pymax _ _ t ht

/-- The reported lowest sample is in the window, its `min_temp` occurs in the
window's list of min temperatures, and it bounds all of them from below. -/
theorem lowest_spec (strat : ThresholdStrategy) (first : DailySample)
    (rest : List DailySample) (r : AnomalyReport)
    (h : analyze_weather_data strat (first :: rest) = Except.ok r) :
    r.lowest ∈ first :: rest ∧
    r.lowest.min_temp ∈ (first :: rest).map DailySample.min_temp ∧
    ∀ t ∈ (first :: rest).map DailySample.min_temp, r.lowest.min_temp ≤ t := by
  rw [analyze_cons] at h
  injection h with h
  subst h
  have hmap : (first :: rest).map DailySample.min_temp =
      first.min_temp :: rest.map DailySample.min_temp := rfl
  have hmem : pymin first.min_temp (rest.map DailySample.min_temp) ∈
      (first :: rest).map DailySample.min_temp := by
    rw [hmap]; exact pymin_mem _ _
  have hg := getD_map_indexOf (first :: rest) DailySample.min_temp
    (pymin first.min_temp (rest.map DailySample.min_temp)) hmem first
  dsimp only
  refine ⟨hg.2, ?_, ?_⟩
  · rw [hg.1]; exact hmem
  · intro t ht
    rw [hg.1]
    rw [hmap] at ht
    exact pymin_le _ _ t ht

/-- The reported highest sample sits at the FIRST window position attaining
its `max_temp` (the `.index(...)` idiom): any position with the same
`max_temp` is at or after it. -/
theorem highest_first_index (strat : ThresholdStrategy) (first : DailySample)
    (rest : List DailySample) (r : AnomalyReport)
    (h : analyze_weather_data strat (first :: rest) = Except.ok r) :
    ∃ i, ∃ hi : i < (first :: rest).length,
      r.highest = (first :: rest).get ⟨i, hi⟩ ∧
      ∀ j, ∀ hj : j < (first :: rest).length,
        ((first :: rest).get ⟨j, hj⟩).max_temp = r.highest.max_temp → i ≤ j := by
  rw [analyze_cons] at h
  injection h with h
  subst h
  have hmem : pymax first.max_temp (rest.map DailySample.max_temp) ∈
      (first :: rest).map DailySample.max_temp := pymax_mem _ _
  have hg := getD_map_indexOf (first :: rest) DailySample.max_temp
    (pymax first.max_temp (rest.map DailySample.max_temp)) hmem first
  have hlt : ((first :: rest).map DailySample.max_temp).indexOf
      (pymax first.max_temp (rest.map DailySample.max_temp)) <
      ((first :: rest).map DailySample.max_temp).length :=
    List.indexOf_lt_length.mpr hmem
  have hlt' : ((first :: rest).map DailySample.max_temp).indexOf
      (pymax first.max_temp (rest.map DailySample.max_temp)) <
      (first :: rest).length := by simpa using hlt
  dsimp only
  refine ⟨_, hlt', ?_, ?_⟩
  · rw [List.getD_eq_getElem (first :: rest) first hlt', List.get_eq_getElem]
  · intro j hj hje
    have hjM : j < ((first :: rest).map DailySample.max_temp).length := by simpa using hj
    refine indexOf_le_of_get_eq _ _ j hjM ?_
    rw [List.get_eq_getElem, List.getElem_map]
    exact hje.trans hg.1

/-- The reported lowest sample sits at the FIRST window position attaining
its `min_temp`. -/
theorem lowest_first_index (strat : ThresholdStrategy) (first : DailySample)
    (rest : List DailySample) (r : AnomalyReport)
    (h : analyze_weather_data strat (first :: rest) = Except.ok r) :
    ∃ i, ∃ hi : i < (first :: rest).length,
      r.lowest = (first :: rest).get ⟨i, hi⟩ ∧
      ∀ j, ∀ hj : j < (first :: rest).length,
        ((first :: rest).get ⟨j, hj⟩).min_temp = r.lowest.min_temp → i ≤ j := by
  rw [analyze_cons] at h
  injection h with h
  subst h
  have hmem : pymin first.min_temp (rest.map DailySample.min_temp) ∈
      (first :: rest).map DailySample.min_temp := pymin_mem _ _
  have hg := getD_map_indexOf (first :: rest) DailySample.min_temp
    (pymin first.min_temp (rest.map DailySample.min_temp)) hmem first
  have hlt : ((first :: rest).map DailySample.min_temp).indexOf
      (pymin first.min_temp (rest.map DailySample.min_temp)) <
      ((first :: rest).map DailySample.min_temp).length :=
    List.indexOf_lt_length.mpr hmem
  have hlt' : ((first :: rest).map DailySample.min_temp).indexOf
      (pymin first.min_temp (rest.map DailySample.min_temp)) <
      (first :: rest).length := by simpa using hlt
  dsimp only
  refine ⟨_, hlt', ?_, ?_⟩
  · rw [List.getD_eq_getElem (first :: rest) first hlt', List.get_eq_getElem]
  · intro j hj hje
    have hjM : j < ((first :: rest).map DailySample.min_temp).length := by simpa using hj
    refine indexOf_le_of_get_eq _ _ j hjM ?_
    rw [List.get_eq_getElem, List.getElem_map]
    exact hje.trans hg.1

/-- On a non-empty frame the pandas analysis produces exactly the final frame
(with the two derived columns written in) and the report assembled by the
script (the defining equation, spelled out). -/
theorem dag1_analyze_cons (first : DailySample) (rest : List DailySample)
    (tf dev : Option (List ℚ)) :
    dag1_analyze_weather_data ⟨first :: rest, tf, dev⟩ =
    (⟨first :: rest,
      some ((first :: rest).map fun s => s.max_temp - s.min_temp),
      some ((first :: rest).map fun s =>
        |s.max_temp - listMean ((first :: rest).map DailySample.max_temp)|)⟩,
     some
      { highest_temp_record := (first :: rest).getD
          (((first :: rest).map DailySample.max_temp).indexOf
            (pymax first.max_temp (rest.map DailySample.max_temp))) first
        lowest_temp_record := (first :: rest).getD
          (((first :: rest).map DailySample.min_temp).indexOf
            (pymin first.min_temp (rest.map DailySample.min_temp))) first
        anomaly_record := (first :: rest).getD
          (((first :: rest).map fun s => s.max_temp - s.min_temp).indexOf
            (pymax (first.max_temp - first.min_temp)
              (rest.map fun s => s.max_temp - s.min_temp))) first
        avg_max_temp := listMean ((first :: rest).map DailySample.max_temp)
        significant_deviations := (first :: rest).filter fun s =>
          decide ((2 : ℚ) <
            |s.max_temp - listMean ((first :: rest).map DailySample.max_temp)|) }) :=
  rfl

/-! ### Concrete windows used as witnesses -/

/-- The spec's worked example window:
`[("2024-01-01", 30, 20), ("2024-01-02", 35, 18), ("2024-01-03", 28, 22)]`. -/
def window₀ : List DailySample :=
  [⟨20240101, 30, 20⟩, ⟨20240102, 35, 18⟩, ⟨20240103, 28, 22⟩]

/-- The report the analyzer produces on `window₀` with `RelativeToMean(2.0)`. -/
def report₀ : AnomalyReport :=
  { highest := ⟨20240102, 35, 18⟩
    lowest := ⟨20240102, 35, 18⟩
    mean_max := 31
    mean_min := 20
    hot_anomalies := [⟨20240102, 35, 18⟩]
    cold_anomalies := [] }

/-- Evaluation of the analyzer on the spec's worked example. -/
theorem analyze_window₀ :
    analyze_weather_data (.relativeToMean 2) window₀ = Except.ok report₀ := by
  simp only [window₀, report₀, analyze_weather_data]
  norm_num [pymax, pymin, listMean, isHotDay, isColdDay,
    List.indexOf_cons_self, List.indexOf_cons_ne, List.indexOf_cons_eq,
    List.filter]

/-- A two-day window on which one sample is simultaneously a hot and a cold
anomaly under `RelativeToMean(1)`: its `max_temp` is above `mean_max + 1`
and its `min_temp` is below `mean_min - 1`. -/
def window₁ : List DailySample := [⟨20240101, 10, 0⟩, ⟨20240102, 0, 10⟩]

/-- The report the analyzer produces on `window₁` with `RelativeToMean(1)`:
the first sample appears in both anomaly lists. -/
def report₁ : AnomalyReport :=
  { highest := ⟨20240101, 10, 0⟩
    lowest := ⟨20240101, 10, 0⟩
    mean_max := 5
    mean_min := 5
    hot_anomalies := [⟨20240101, 10, 0⟩]
    cold_anomalies := [⟨20240101, 10, 0⟩] }

/-- Evaluation of the analyzer on `window₁`. -/
theorem analyze_window₁ :
    analyze_weather_data (.relativeToMean 1) window₁ = Except.ok report₁ := by
  simp only [window₁, report₁, analyze_weather_data]
  norm_num [pymax, pymin, listMean, isHotDay, isColdDay,
    List.indexOf_cons_self, List.indexOf_cons_ne, List.indexOf_cons_eq,
    List.filter]

/-- A single day at `max_temp = 33`, the spec's fixed-normal example day. -/
def window₂ : List DailySample := [⟨20240821, 33, 25⟩]

/-- The report the analyzer produces on `window₂` with
`RelativeToFixedNormal(29.5, 22.5, 2.5)`: the day is flagged hot. -/
def report₂ : AnomalyReport :=
  { highest := ⟨20240821, 33, 25⟩
    lowest := ⟨20240821, 33, 25⟩
    mean_max := 33
    mean_min := 25
    hot_anomalies := [⟨20240821, 33, 25⟩]
    cold_anomalies := [] }

/-- Evaluation of the analyzer on `window₂` with the Hyderabad normals of
`weather.py`. -/
theorem analyze_window₂ :
    analyze_weather_data (.relativeToFixedNormal 29.5 22.5 2.5) window₂ =
      Except.ok report₂ := by
  simp only [window₂, report₂, analyze_weather_data]
  norm_num [pymax, pymin, listMean, isHotDay, isColdDay,
    List.indexOf_cons_self, List.indexOf_cons_ne, List.indexOf_cons_eq,
    List.filter]

/-- A two-row frame for the pandas script: mean max temperature is `5`, so
the first row (max `0`) deviates by `5 > 2` while sitting below the mean. -/
def frame₁ : DataFrame := ⟨[⟨20240101, 0, 0⟩, ⟨20240102, 10, 0⟩], none, none⟩

/-- The final frame state after the pandas analysis of `frame₁`. -/
def frame₁out : DataFrame :=
  ⟨[⟨20240101, 0, 0⟩, ⟨20240102, 10, 0⟩], some [0, 10], some [5, 5]⟩

/-- The pandas report on `frame₁`: both rows deviate significantly. -/
def frame₁report : Dag1Report :=
  { highest_temp_record := ⟨20240102, 10, 0⟩
    lowest_temp_record := ⟨20240101, 0, 0⟩
    anomaly_record := ⟨20240102, 10, 0⟩
    avg_max_temp := 5
    significant_deviations := [⟨20240101, 0, 0⟩, ⟨20240102, 10, 0⟩] }

/-- Evaluation of the pandas analysis on `frame₁`. -/
theorem dag1_analyze_frame₁ :
    dag1_analyze_weather_data frame₁ = (frame₁out, some frame₁report) := by
  simp only [frame₁, frame₁out, frame₁report, dag1_analyze_weather_data]
  norm_num [pymax, pymin, listMean,
    List.indexOf_cons_self, List.indexOf_cons_ne, List.indexOf_cons_eq,
    List.filter]

/-! ### Claim theorems -/

/-- C1: for every non-empty window, the reported highest temperature equals
the maximum of the `max_temp` values over the window (it occurs among them
and bounds them all from above), and the reported lowest temperature equals
the minimum of the `min_temp` values (it occurs among them and bounds them
all from below). -/
theorem analyzer_reports_extreme_temperatures (strat : ThresholdStrategy)
    (w : List DailySample) (r : AnomalyReport)
    (h : analyze_weather_data strat w = Except.ok r) :
    r.highest.max_temp ∈ w.map DailySample.max_temp ∧
    (∀ t ∈ w.map DailySample.max_temp, t ≤ r.highest.max_temp) ∧
    r.lowest.min_temp ∈ w.map DailySample.min_temp ∧
    (∀ t ∈ w.map DailySample.min_temp, r.lowest.min_temp ≤ t) := by
  cases w with
  | nil => simp [analyze_weather_data] at h
  | cons first rest =>
    obtain ⟨-, h1, h2⟩ := highest_spec strat first rest r h
    obtain ⟨-, h3, h4⟩ := lowest_spec strat first rest r h
    exact ⟨h1, h2, h3, h4⟩

/-- Witness for C1: the property at the spec's worked example window. -/
theorem analyzer_reports_extreme_temperatures_witness :
    analyze_weather_data (.relativeToMean 2) window₀ = Except.ok report₀ ∧
    (report₀.highest.max_temp ∈ window₀.map DailySample.max_temp ∧
     (∀ t ∈ window₀.map DailySample.max_temp, t ≤ report₀.highest.max_temp) ∧
     report₀.lowest.min_temp ∈ window₀.map DailySample.min_temp ∧
     (∀ t ∈ window₀.map DailySample.min_temp, report₀.lowest.min_temp ≤ t)) :=
  ⟨analyze_window₀,
   analyzer_reports_extreme_temperatures (.relativeToMean 2) window₀ report₀
     analyze_window₀⟩

/-- C4: the analyzer fails with `InvalidInputError` exactly when the window
is empty — this is the only error it can produce — and on every non-empty
window it produces a report. -/
theorem analyzer_fails_only_on_empty_window (strat : ThresholdStrategy)
    (w : List DailySample) :
    (∀ e, analyze_weather_data strat w = Except.error e ↔
        w = [] ∧ e = InvalidInputError.emptyWindow) ∧
    (w ≠ [] → ∃ r, analyze_weather_data strat w = Except.ok r) := by
  cases w with
  | nil =>
    refine ⟨?_, fun hne => absurd rfl hne⟩
    intro e
    constructor
    · intro _
      exact ⟨rfl, by cases e; rfl⟩
    · rintro ⟨-, rfl⟩
      rfl
  | cons first rest =>
    refine ⟨?_, fun _ => ⟨_, analyze_cons strat first rest⟩⟩
    intro e
    rw [analyze_cons]
    constructor
    · intro hc
      exact absurd hc (by simp)
    · rintro ⟨hc, -⟩
      exact absurd hc (by simp)

/-- Witness for C4: the empty window errors out, the worked example window
yields a report. -/
theorem analyzer_fails_only_on_empty_window_witness :
    analyze_weather_data (.relativeToMean 2) [] =
      Except.error InvalidInputError.emptyWindow ∧
    ∃ r, analyze_weather_data (.relativeToMean 2) window₀ = Except.ok r :=
  ⟨((analyzer_fails_only_on_empty_window (.relativeToMean 2) []).1
      InvalidInputError.emptyWindow).mpr ⟨rfl, rfl⟩,
   (analyzer_fails_only_on_empty_window (.relativeToMean 2) window₀).2
     (by simp [window₀])⟩

/-- C5: on a chronologically ordered window, whenever several samples tie on
the extreme value the reported highest (resp. lowest) sample is the tied one
with the earliest date: both reported samples are in the window, and every
window sample with the same `max_temp` (resp. `min_temp`) as the reported
one has a date at least as late. -/
theorem extreme_ties_resolve_to_earliest_date (strat : ThresholdStrategy)
    (w : List DailySample) (r : AnomalyReport)
    (hchron : w.Pairwise fun s t => s.date < t.date)
    (h : analyze_weather_data strat w = Except.ok r) :
    r.highest ∈ w ∧ r.lowest ∈ w ∧
    (∀ s ∈ w, s.max_temp = r.highest.max_temp → r.highest.date ≤ s.date) ∧
    (∀ s ∈ w, s.min_temp = r.lowest.min_temp → r.lowest.date ≤ s.date) := by
  cases w with
  | nil => simp [analyze_weather_data] at h
  | cons first rest =>
    obtain ⟨i, hi, hieq, himin⟩ := highest_first_index strat first rest r h
    obtain ⟨i', hi', hieq', himin'⟩ := lowest_first_index strat first rest r h
    have hget := List.pairwise_iff_get.mp hchron
    refine ⟨by rw [hieq]; exact List.get_mem _ _ _,
            by rw [hieq']; exact List.get_mem _ _ _, ?_, ?_⟩
    · intro s hs htie
      obtain ⟨⟨j, hj⟩, hsg⟩ := List.mem_iff_get.mp hs
      subst hsg
      have hij : i ≤ j := himin j hj htie
      rcases Nat.lt_or_ge i j with hlt | hge
      · have hd := hget ⟨i, hi⟩ ⟨j, hj⟩ (Fin.mk_lt_mk.mpr hlt)
        rw [hieq]
        exact le_of_lt hd
      · have hij' : i = j := le_antisymm hij hge
        subst hij'
        rw [hieq]
    · intro s hs htie
      obtain ⟨⟨j, hj⟩, hsg⟩ := List.mem_iff_get.mp hs
      subst hsg
      have hij : i' ≤ j := himin' j hj htie
      rcases Nat.lt_or_ge i' j with hlt | hge
      · have hd := hget ⟨i', hi'⟩ ⟨j, hj⟩ (Fin.mk_lt_mk.mpr hlt)
        rw [hieq']
        exact le_of_lt hd
      · have hij' : i' = j := le_antisymm hij hge
        subst hij'
        rw [hieq']

/-- Witness for C5: the property at the spec's worked example window, whose
dates are strictly increasing. -/
theorem extreme_ties_resolve_to_earliest_date_witness :
    window₀.Pairwise (fun s t => s.date < t.date) ∧
    analyze_weather_data (.relativeToMean 2) window₀ = Except.ok report₀ ∧
    (report₀.highest ∈ window₀ ∧ report₀.lowest ∈ window₀ ∧
     (∀ s ∈ window₀, s.max_temp = report₀.highest.max_temp →
        report₀.highest.date ≤ s.date) ∧
     (∀ s ∈ window₀, s.min_temp = report₀.lowest.min_temp →
        report₀.lowest.date ≤ s.date)) :=
  ⟨by simp [window₀, List.pairwise_cons], analyze_window₀,
   extreme_ties_resolve_to_earliest_date (.relativeToMean 2) window₀ report₀
     (by simp [window₀, List.pairwise_cons]) analyze_window₀⟩

/-- C6: the report's `mean_max` is exactly the sum of the window's `max_temp`
values divided by the window length, and `mean_min` likewise for `min_temp`,
in exact rational arithmetic. -/
theorem analyzer_reports_arithmetic_means (strat : ThresholdStrategy)
    (w : List DailySample) (r : AnomalyReport)
    (h : analyze_weather_data strat w = Except.ok r) :
    r.mean_max = (w.map DailySample.max_temp).sum / (w.length : ℚ) ∧
    r.mean_min = (w.map DailySample.min_temp).sum / (w.length : ℚ) := by
  cases w with
  | nil => simp [analyze_weather_data] at h
  | cons first rest =>
    rw [analyze_cons] at h
    injection h with h
    subst h
    constructor <;> simp [listMean, List.length_map]

/-- Witness for C6: the means at the spec's worked example window. -/
theorem analyzer_reports_arithmetic_means_witness :
    analyze_weather_data (.relativeToMean 2) window₀ = Except.ok report₀ ∧
    (report₀.mean_max = (window₀.map DailySample.max_temp).sum /
        (window₀.length : ℚ) ∧
     report₀.mean_min = (window₀.map DailySample.min_temp).sum /
        (window₀.length : ℚ)) :=
  ⟨analyze_window₀,
   analyzer_reports_arithmetic_means (.relativeToMean 2) window₀ report₀
     analyze_window₀⟩

/-- C10: the reported extreme temperatures bound the reported means:
`mean_max ≤ highest.max_temp` and `lowest.min_temp ≤ mean_min`. -/
theorem extremes_bound_means (strat : ThresholdStrategy)
    (w : List DailySample) (r : AnomalyReport)
    (h : analyze_weather_data strat w = Except.ok r) :
    r.mean_max ≤ r.highest.max_temp ∧ r.lowest.min_temp ≤ r.mean_min := by
  cases w with
  | nil => simp [analyze_weather_data] at h
  | cons first rest =>
    obtain ⟨-, -, hub⟩ := highest_spec strat first rest r h
    obtain ⟨-, -, hlb⟩ := lowest_spec strat first rest r h
    have hmax : r.mean_max =
        listMean ((first :: rest).map DailySample.max_temp) := by
      rw [analyze_cons] at h
      injection h with h
      rw [← h]
    have hmin : r.mean_min =
        listMean ((first :: rest).map DailySample.min_temp) := by
      rw [analyze_cons] at h
      injection h with h
      rw [← h]
    constructor
    · rw [hmax]
      exact listMean_le_of_forall_le _ (by simp) _ hub
    · rw [hmin]
      exact le_listMean_of_forall_le _ (by simp) _ hlb

/-- Witness for C10: the bounds at the spec's worked example window. -/
theorem extremes_bound_means_witness :
    analyze_weather_data (.relativeToMean 2) window₀ = Except.ok report₀ ∧
    (report₀.mean_max ≤ report₀.highest.max_temp ∧
     report₀.lowest.min_temp ≤ report₀.mean_min) :=
  ⟨analyze_window₀,
   extremes_bound_means (.relativeToMean 2) window₀ report₀ analyze_window₀⟩

/-- C2: under `RelativeToMean(delta)` a sample is a hot anomaly iff its
`max_temp` exceeds the window's mean max by more than `delta`, and a cold
anomaly iff its `min_temp` is below the window's mean min by more than
`delta`; the two tests are independent, and one sample can appear in both
lists (witnessed on `window₁`). -/
theorem relative_to_mean_anomaly_classification (delta : ℚ)
    (w : List DailySample) (r : AnomalyReport)
    (h : analyze_weather_data (.relativeToMean delta) w = Except.ok r) :
    (∀ s, s ∈ r.hot_anomalies ↔
        s ∈ w ∧
        (w.map DailySample.max_temp).sum / (w.length : ℚ) + delta < s.max_temp) ∧
    (∀ s, s ∈ r.cold_anomalies ↔
        s ∈ w ∧
        s.min_temp < (w.map DailySample.min_temp).sum / (w.length : ℚ) - delta) ∧
    (∃ s, analyze_weather_data (.relativeToMean 1) window₁ = Except.ok report₁ ∧
        s ∈ report₁.hot_anomalies ∧ s ∈ report₁.cold_anomalies) := by
  cases w with
  | nil => simp [analyze_weather_data] at h
  | cons first rest =>
    rw [analyze_cons] at h
    injection h with h
    subst h
    refine ⟨?_, ?_, ⟨20240101, 10, 0⟩, analyze_window₁,
      by norm_num [report₁], by norm_num [report₁]⟩
    · intro s
      simp [List.mem_filter, isHotDay, listMean, List.length_map]
    · intro s
      simp [List.mem_filter, isColdDay, listMean, List.length_map]

/-- Witness for C2: the classification at the spec's worked example window
with `delta = 2`. -/
theorem relative_to_mean_anomaly_classification_witness :
    analyze_weather_data (.relativeToMean 2) window₀ = Except.ok report₀ ∧
    ((∀ s, s ∈ report₀.hot_anomalies ↔
        s ∈ window₀ ∧
        (window₀.map DailySample.max_temp).sum / (window₀.length : ℚ) + 2 <
          s.max_temp) ∧
     (∀ s, s ∈ report₀.cold_anomalies ↔
        s ∈ window₀ ∧
        s.min_temp <
          (window₀.map DailySample.min_temp).sum / (window₀.length : ℚ) - 2) ∧
     (∃ s, analyze_weather_data (.relativeToMean 1) window₁ = Except.ok report₁ ∧
        s ∈ report₁.hot_anomalies ∧ s ∈ report₁.cold_anomalies)) :=
  ⟨analyze_window₀,
   relative_to_mean_anomaly_classification 2 window₀ report₀ analyze_window₀⟩

/-- C3: under `RelativeToFixedNormal(normal_max, normal_min, delta)` a sample
is a hot anomaly iff `max_temp > normal_max + delta` and a cold anomaly iff
`min_temp < normal_min - delta`; with the Hyderabad parameters
`(29.5, 22.5, 2.5)` a day at `max_temp = 33` is flagged hot since
`33 > 29.5 + 2.5 = 32`. -/
theorem fixed_normal_anomaly_classification (nmax nmin delta : ℚ)
    (w : List DailySample) (r : AnomalyReport)
    (h : analyze_weather_data (.relativeToFixedNormal nmax nmin delta) w =
      Except.ok r) :
    (∀ s, s ∈ r.hot_anomalies ↔ s ∈ w ∧ nmax + delta < s.max_temp) ∧
    (∀ s, s ∈ r.cold_anomalies ↔ s ∈ w ∧ s.min_temp < nmin - delta) ∧
    ((29.5 : ℚ) + 2.5 = 32 ∧ (32 : ℚ) < 33 ∧
      analyze_weather_data (.relativeToFixedNormal 29.5 22.5 2.5) window₂ =
        Except.ok report₂ ∧
      (⟨20240821, 33, 25⟩ : DailySample) ∈ report₂.hot_anomalies) := by
  cases w with
  | nil => simp [analyze_weather_data] at h
  | cons first rest =>
    rw [analyze_cons] at h
    injection h with h
    subst h
    refine ⟨?_, ?_, by norm_num, by norm_num, analyze_window₂,
      by norm_num [report₂]⟩
    · intro s
      simp [List.mem_filter, isHotDay]
    · intro s
      simp [List.mem_filter, isColdDay]

/-- Witness for C3: the classification on the single-day window at 33 °C. -/
theorem fixed_normal_anomaly_classification_witness :
    analyze_weather_data (.relativeToFixedNormal 29.5 22.5 2.5) window₂ =
      Except.ok report₂ ∧
    ((∀ s, s ∈ report₂.hot_anomalies ↔
        s ∈ window₂ ∧ (29.5 : ℚ) + 2.5 < s.max_temp) ∧
     (∀ s, s ∈ report₂.cold_anomalies ↔
        s ∈ window₂ ∧ s.min_temp < (22.5 : ℚ) - 2.5) ∧
     ((29.5 : ℚ) + 2.5 = 32 ∧ (32 : ℚ) < 33 ∧
      analyze_weather_data (.relativeToFixedNormal 29.5 22.5 2.5) window₂ =
        Except.ok report₂ ∧
      (⟨20240821, 33, 25⟩ : DailySample) ∈ report₂.hot_anomalies)) :=
  ⟨analyze_window₂,
   fixed_normal_anomaly_classification 29.5 22.5 2.5 window₂ report₂
     analyze_window₂⟩

/-- Counterexample to C7 as stated: the pandas analysis of `dag_1.py` does
perform a side effect on its input — running it on a fresh two-column frame
leaves the frame changed (the `temp_fluctuation` and `deviation_from_avg`
columns have been written into it). -/
theorem pandas_analysis_mutates_input_frame :
    (dag1_analyze_weather_data frame₁).1 ≠ frame₁ := by
  rw [dag1_analyze_frame₁]
  simp [frame₁out, frame₁]

/-- C7 (amended): the analyzers are deterministic — the same window and
strategy always yield the same report, and the pandas analysis of the same
frame always yields the same result — and the pandas analysis never changes
the input rows themselves, only the two derived columns it adds. -/
theorem analyzers_deterministic_and_rows_preserved :
    (∀ (strat : ThresholdStrategy) (w : List DailySample) r₁ r₂,
        analyze_weather_data strat w = Except.ok r₁ →
        analyze_weather_data strat w = Except.ok r₂ → r₁ = r₂) ∧
    (∀ (df : DataFrame) out₁ out₂, dag1_analyze_weather_data df = out₁ →
        dag1_analyze_weather_data df = out₂ → out₁ = out₂) ∧
    (∀ df : DataFrame, ((dag1_analyze_weather_data df).1).rows = df.rows) := by
  refine ⟨?_, ?_, ?_⟩
  · intro strat w r₁ r₂ h₁ h₂
    rw [h₁] at h₂
    exact Except.ok.inj h₂
  · intro df o₁ o₂ h₁ h₂
    rw [← h₁, ← h₂]
  · intro df
    rcases df with ⟨rows, tf, dev⟩
    cases rows with
    | nil => rfl
    | cons a l => rfl

/-- Witness for the amended C7: determinism and row preservation at the
concrete worked-example inputs. -/
theorem analyzers_deterministic_and_rows_preserved_witness :
    report₀ = report₀ ∧ ((dag1_analyze_weather_data frame₁).1).rows = frame₁.rows :=
  ⟨analyzers_deterministic_and_rows_preserved.1 (.relativeToMean 2) window₀
      report₀ report₀ analyze_window₀ analyze_window₀,
   analyzers_deterministic_and_rows_preserved.2.2 frame₁⟩

/-- C8: on the spec's worked example window with `RelativeToMean(2.0)` the
analyzer reports the day-2 sample as highest and lowest, means 31 and 20,
hot anomalies exactly day 2 (35 > 31 + 2 = 33) and no cold anomalies
(18 < 20 - 2 = 18 is false). -/
theorem worked_example_report :
    analyze_weather_data (.relativeToMean 2) window₀ = Except.ok report₀ ∧
    report₀.highest = ⟨20240102, 35, 18⟩ ∧
    report₀.lowest = ⟨20240102, 35, 18⟩ ∧
    report₀.mean_max = 31 ∧ report₀.mean_min = 20 ∧
    report₀.hot_anomalies = [⟨20240102, 35, 18⟩] ∧
    report₀.cold_anomalies = [] ∧
    (31 : ℚ) + 2 < 35 ∧ ¬((18 : ℚ) < 20 - 2) :=
  ⟨analyze_window₀, rfl, rfl, rfl, rfl, rfl, rfl, by norm_num, by norm_num⟩

/-- C9: in the pandas script a row is flagged as a significant deviation iff
the absolute difference between its `max_temp` and the window's mean max
exceeds 2, so days below the mean are flagged symmetrically with days above
it (a below-mean flagged day is witnessed on `frame₁`). -/
theorem pandas_deviation_check_is_symmetric (df dfout : DataFrame)
    (r : Dag1Report)
    (h : dag1_analyze_weather_data df = (dfout, some r)) :
    (∀ s, s ∈ r.significant_deviations ↔
        s ∈ df.rows ∧
        2 < |s.max_temp -
          (df.rows.map DailySample.max_temp).sum / (df.rows.length : ℚ)|) ∧
    (∃ s, dag1_analyze_weather_data frame₁ = (frame₁out, some frame₁report) ∧
        s ∈ frame₁report.significant_deviations ∧
        s.max_temp < frame₁report.avg_max_temp) := by
  refine ⟨?_, ⟨20240101, 0, 0⟩, dag1_analyze_frame₁,
    by norm_num [frame₁report], by norm_num [frame₁report]⟩
  rcases df with ⟨rows, tf, dev⟩
  cases rows with
  | nil => simp [dag1_analyze_weather_data] at h
  | cons first rest =>
    rw [dag1_analyze_cons] at h
    injection h with h1 h2
    injection h2 with h2
    subst h2
    intro s
    simp [List.mem_filter, listMean, List.length_map]

/-- Witness for C9: the classification on the concrete frame `frame₁`. -/
theorem pandas_deviation_check_is_symmetric_witness :
    dag1_analyze_weather_data frame₁ = (frame₁out, some frame₁report) ∧
    ((∀ s, s ∈ frame₁report.significant_deviations ↔
        s ∈ frame₁.rows ∧
        2 < |s.max_temp -
          (frame₁.rows.map DailySample.max_temp).sum / (frame₁.rows.length : ℚ)|) ∧
     (∃ s, dag1_analyze_weather_data frame₁ = (frame₁out, some frame₁report) ∧
        s ∈ frame₁report.significant_deviations ∧
        s.max_temp < frame₁report.avg_max_temp)) :=
  ⟨dag1_analyze_frame₁,
   pandas_deviation_check_is_symmetric frame₁ frame₁out frame₁report
     dag1_analyze_frame₁⟩
